import Mathlib

/-!
# Verification of the newToolNoProblem persistence layer

Shallow embedding of the file-system helper functions of `src/main.py`
(progress store, session store, lesson folder store, module assembler),
together with proofs of the specified properties.

Conventions of the embedding:

* The local filesystem is a `World`: typed maps for session files,
  progress files, lesson text files, plus the set of existing directories
  and a health flag `ok`.  When `ok = false`, every primitive that touches
  the disk (open for read/write, `os.makedirs`, `os.listdir`) raises, which
  models an I/O failure; `os.path.exists` never raises (as in CPython).
* Each Python helper's `try:` body is embedded as a function
  `World → Except String (result × World)`; the surrounding
  `except Exception` handler is the top-level wrapper turning an exception
  into the `{status: "error", error_message: ...}` dictionary, exactly as
  in the source.
* Python dictionaries returned to the caller are embedded as association
  lists `List (String × Value)` over a JSON-like `Value` type, built with
  the same keys, in the same order, as the source.
* `datetime.now()` and `os.getcwd()` are impure inputs; they are passed in
  as explicit parameters `now` and `cwd`.
-/

/-- JSON-like values appearing in the dictionaries the helpers return. -/
inductive Value where
  | str : String → Value
  | int : Int → Value
  | bool : Bool → Value
  | null : Value
  | vlist : List Value → Value
  | dict : List (String × Value) → Value

/-- Lookup in an association list (first binding wins), as Python `d[k]`. -/
def getKey {α : Type} (l : List (String × α)) (k : String) : Option α :=
  match l with
  | [] => none
  | (k', v) :: rest => if k' = k then some v else getKey rest k

/-- Python `d[k] = v`: update the binding in place if the key exists,
otherwise append the new binding at the end (CPython dicts preserve
insertion order). -/
def setKey {α : Type} (l : List (String × α)) (k : String) (v : α) :
    List (String × α) :=
  match l with
  | [] => [(k, v)]
  | (k', v') :: rest =>
      if k' = k then (k, v) :: rest else (k', v') :: setKey rest k v

/-- Python `str.lower()` (ASCII range, which covers all tool names used). -/
def pyLower (s : String) : String := ⟨s.data.map Char.toLower⟩

/-- Python `str.replace(a, b)` for single-character patterns. -/
def replaceChar (s : String) (a b : Char) : String :=
  ⟨s.data.map (fun c => if c = a then b else c)⟩

/-- The slug used in the session filename, `src/main.py:209`:
`tool_name.lower().replace(' ', '_')` (note: hyphens are NOT replaced). -/
def sessionSlug (tool_name : String) : String :=
  replaceChar (pyLower tool_name) ' ' '_'

/-- Session filename `f"session_{user_id}_{...}.json"`, `src/main.py:209`. -/
def sessionFile (user_id tool_name : String) : String :=
  "session_" ++ user_id ++ "_" ++ sessionSlug tool_name ++ ".json"

/-- The lesson folder slug, `src/main.py:318` and `365` and `402`:
`tool_name.lower().replace(' ', '_').replace('-', '_')`. -/
def folderName (tool_name : String) : String :=
  replaceChar (replaceChar (pyLower tool_name) ' ' '_') '-' '_'

/-- Progress filename `f"progress_{user_id}.json"`, `src/main.py:118`. -/
def progressFile (user_id : String) : String :=
  "progress_" ++ user_id ++ ".json"

/-- Path join, `os.path.join`, for the relative paths used here. -/
def pjoin (a b : String) : String := a ++ "/" ++ b

/-- One entry of `modules_completed` in a session record. -/
structure Completion where
  module_number : Int
  module_name : String
  completed_at : String
  deriving DecidableEq

/-- A session record, the JSON document `session_{user}_{slug}.json`. -/
structure Session where
  user_id : String
  tool_name : String
  started : String
  current_module : Int
  modules_completed : List Completion
  status : String
  deriving DecidableEq

/-- One milestone entry in a progress record. -/
structure Milestone where
  milestone : String
  completed : Bool
  timestamp : String
  deriving DecidableEq

/-- Per-tool progress inside a progress record. -/
structure ToolProgress where
  started : String
  milestones : List Milestone
  deriving DecidableEq

/-- A progress record, the JSON document `progress_{user}.json`.  The
`tools` mapping is keyed by the raw tool name (no slug). -/
structure ProgressData where
  user_id : String
  tools : List (String × ToolProgress)
  deriving DecidableEq

/-- The state of the local filesystem visible to the helpers. -/
structure World where
  ok : Bool
  sessions : List (String × Session)
  progress : List (String × ProgressData)
  dirs : List String
  files : List (String × String)

/-- The empty, healthy filesystem. -/
def World.empty : World :=
  { ok := true, sessions := [], progress := [], dirs := [], files := [] }

/-! ## Filesystem primitives (these raise when the disk is unhealthy) -/

def diskMsg : String := "disk failure"

/-- Models `open(session_file, 'w')` + `json.dump`. -/
def writeSession (name : String) (s : Session) (w : World) :
    Except String (Unit × World) :=
  if w.ok then .ok ((), { w with sessions := setKey w.sessions name s })
  else .error diskMsg

/-- Models `open(session_file, 'r')` + `json.load`. -/
def readSession (name : String) (w : World) :
    Except String (Session × World) :=
  if w.ok then
    match getKey w.sessions name with
    | some s => .ok (s, w)
    | none => .error "file not found"
  else .error diskMsg

/-- Models `open(progress_file, 'w')` + `json.dump`. -/
def writeProgress (name : String) (pd : ProgressData) (w : World) :
    Except String (Unit × World) :=
  if w.ok then .ok ((), { w with progress := setKey w.progress name pd })
  else .error diskMsg

/-- Models `open(progress_file, 'r')` + `json.load`. -/
def readProgress (name : String) (w : World) :
    Except String (ProgressData × World) :=
  if w.ok then
    match getKey w.progress name with
    | some pd => .ok (pd, w)
    | none => .error "file not found"
  else .error diskMsg

/-- Models `os.makedirs(path)` (only ever called on absent paths in the source,
so modelled as adding the path). -/
def makedirs (path : String) (w : World) : Except String (Unit × World) :=
  if w.ok then
    .ok ((), { w with dirs := if path ∈ w.dirs then w.dirs else w.dirs ++ [path] })
  else .error diskMsg

/-- The filenames of the files lying directly inside a folder. -/
def filesIn (folder_path : String) (files : List (String × String)) :
    List String :=
  files.filterMap (fun p =>
    if (pjoin folder_path "").isPrefixOf p.1 then
      some (p.1.drop (pjoin folder_path "").length)
    else none)

/-- Models `os.listdir(folder_path)`. -/
def listdir (folder_path : String) (w : World) :
    Except String (List String × World) :=
  if w.ok then .ok (filesIn folder_path w.files, w) else .error diskMsg

/-- Models `open(file_path, 'w')` + `f.write(content)`. -/
def writeTextFile (path content : String) (w : World) :
    Except String (Unit × World) :=
  if w.ok then .ok ((), { w with files := setKey w.files path content })
  else .error diskMsg

/-- Models `open(file_path, 'r')` + `f.read()`. -/
def readTextFile (path : String) (w : World) :
    Except String (String × World) :=
  if w.ok then
    match getKey w.files path with
    | some c => .ok (c, w)
    | none => .error "file not found"
  else .error diskMsg

/-! ## Session store: `manage_learning_session`, `src/main.py:195-303` -/

def completionValue (c : Completion) : Value :=
  .dict [("module_number", .int c.module_number),
         ("module_name", .str c.module_name),
         ("completed_at", .str c.completed_at)]

def sessionValue (s : Session) : Value :=
  .dict [("user_id", .str s.user_id),
         ("tool_name", .str s.tool_name),
         ("started", .str s.started),
         ("current_module", .int s.current_module),
         ("modules_completed", .vlist (s.modules_completed.map completionValue)),
         ("status", .str s.status)]

/-- The `try:` body of `manage_learning_session` (lines 208-297). -/
def manageBody (now user_id tool_name action module_name : String)
    (w : World) : Except String (List (String × Value) × World) :=
  let session_file := sessionFile user_id tool_name
  if action = "start" then
    let session : Session :=
      { user_id := user_id, tool_name := tool_name, started := now,
        current_module := 0, modules_completed := [],
        status := "in_progress" }
    match writeSession session_file session w with
    | .error e => .error e
    | .ok (_, w1) =>
        .ok ([("status", .str "success"),
              ("message", .str ("Started learning session for " ++ tool_name)),
              ("session", sessionValue session)], w1)
  else if action = "next_module" then
    if (getKey w.sessions session_file).isSome then
      match readSession session_file w with
      | .error e => .error e
      | .ok (s, w1) =>
          let s2 := { s with current_module := s.current_module + 1 }
          match writeSession session_file s2 w1 with
          | .error e => .error e
          | .ok (_, w2) =>
              .ok ([("status", .str "success"),
                    ("message", .str ("Advanced to module " ++
                      toString s2.current_module)),
                    ("current_module", .int s2.current_module)], w2)
    else
      .ok ([("status", .str "error"),
            ("error_message",
             .str "No active session found. Start a new session first.")], w)
  else if action = "complete_module" then
    if (getKey w.sessions session_file).isSome then
      match readSession session_file w with
      | .error e => .error e
      | .ok (s, w1) =>
          let entry : Completion :=
            { module_number := s.current_module,
              module_name :=
                if module_name ≠ "" then module_name
                else "Module " ++ toString s.current_module,
              completed_at := now }
          let s2 := { s with
            modules_completed := s.modules_completed ++ [entry] }
          match writeSession session_file s2 w1 with
          | .error e => .error e
          | .ok (_, w2) =>
              .ok ([("status", .str "success"),
                    ("message", .str ("Module " ++
                      toString s.current_module ++ " completed!")),
                    ("modules_completed",
                     .int s2.modules_completed.length)], w2)
    else
      .ok ([("status", .str "error"),
            ("error_message", .str "No active session found")], w)
  else if action = "get_current" then
    if (getKey w.sessions session_file).isSome then
      match readSession session_file w with
      | .error e => .error e
      | .ok (s, w1) =>
          .ok ([("status", .str "success"),
                ("session", sessionValue s)], w1)
    else
      .ok ([("status", .str "success"),
            ("message", .str "No active session"),
            ("session", Value.null)], w)
  else
    .ok ([("status", .str "error"),
          ("error_message", .str ("Unknown action: " ++ action))], w)

/-- Embeds `manage_learning_session` with its `except Exception` handler
(lines 299-303).  `module_name` defaults to `""` in the source. -/
def manage_learning_session (now user_id tool_name action module_name : String)
    (w : World) : List (String × Value) × World :=
  match manageBody now user_id tool_name action module_name w with
  | .ok (d, w1) => (d, w1)
  | .error e =>
      ([("status", .str "error"),
        ("error_message", .str ("Failed to manage session: " ++ e))], w)

/-! ## Progress store: `track_progress` and `get_progress_summary`,
`src/main.py:104-192` -/

def milestoneValue (m : Milestone) : Value :=
  .dict [("milestone", .str m.milestone),
         ("completed", .bool m.completed),
         ("timestamp", .str m.timestamp)]

def toolProgressValue (tp : ToolProgress) : Value :=
  .dict [("started", .str tp.started),
         ("milestones", .vlist (tp.milestones.map milestoneValue))]

/-- The `try:` body of `track_progress` (lines 117-148). -/
def track_progressBody (now user_id tool_name milestone : String)
    (completed : Bool) (w : World) :
    Except String (List (String × Value) × World) :=
  let progress_file := progressFile user_id
  match
    (if (getKey w.progress progress_file).isSome then
       readProgress progress_file w
     else .ok ({ user_id := user_id, tools := [] }, w)) with
  | .error e => .error e
  | .ok (pd, w1) =>
      let tools1 :=
        if (getKey pd.tools tool_name).isSome then pd.tools
        else setKey pd.tools tool_name { started := now, milestones := [] }
      match getKey tools1 tool_name with
      | none => .error ("KeyError: " ++ tool_name)
      | some tp =>
          let tp2 := { tp with milestones := tp.milestones ++
            [{ milestone := milestone, completed := completed,
               timestamp := now }] }
          let pd2 : ProgressData :=
            { pd with tools := setKey tools1 tool_name tp2 }
          match writeProgress progress_file pd2 w1 with
          | .error e => .error e
          | .ok (_, w2) =>
              .ok ([("status", .str "success"),
                    ("message", .str ("Progress tracked: " ++ milestone)),
                    ("total_milestones",
                     .int tp2.milestones.length)], w2)

/-- Embeds `track_progress` with its `except Exception` handler (lines 149-153).
`completed` defaults to `true` in the source. -/
def track_progress (now user_id tool_name milestone : String)
    (completed : Bool) (w : World) : List (String × Value) × World :=
  match track_progressBody now user_id tool_name milestone completed w with
  | .ok (d, w1) => (d, w1)
  | .error e =>
      ([("status", .str "error"),
        ("error_message", .str ("Failed to track progress: " ++ e))], w)

/-- The `try:` body of `get_progress_summary` (lines 166-187). -/
def get_progress_summaryBody (user_id : String) (w : World) :
    Except String (List (String × Value) × World) :=
  let progress_file := progressFile user_id
  if ¬ (getKey w.progress progress_file).isSome then
    .ok ([("status", .str "success"),
          ("message", .str "No progress recorded yet"),
          ("tools_count", .int 0),
          ("tools", .dict [])], w)
  else
    match readProgress progress_file w with
    | .error e => .error e
    | .ok (pd, w1) =>
        .ok ([("status", .str "success"),
              ("user_id", .str user_id),
              ("tools_count", .int pd.tools.length),
              ("tools", .dict (pd.tools.map
                (fun p => (p.1, toolProgressValue p.2))))], w1)

/-- Embeds `get_progress_summary` with its `except Exception` handler
(lines 188-192). -/
def get_progress_summary (user_id : String) (w : World) :
    List (String × Value) × World :=
  match get_progress_summaryBody user_id w with
  | .ok (d, w1) => (d, w1)
  | .error e =>
      ([("status", .str "error"),
        ("error_message", .str ("Failed to retrieve progress: " ++ e))], w)

/-! ## Lesson folder store: `create_tool_folder`, `save_to_tool_folder`,
`read_from_tool_folder`, `src/main.py:306-428` -/

/-- The `try:` body of `create_tool_folder` (lines 317-344). -/
def create_tool_folderBody (cwd tool_name : String) (w : World) :
    Except String (List (String × Value) × World) :=
  let folder_name := folderName tool_name
  let lessons_dir := pjoin cwd "lessons"
  let folder_path := pjoin lessons_dir folder_name
  match
    (if lessons_dir ∈ w.dirs then .ok ((), w)
     else makedirs lessons_dir w) with
  | .error e => .error e
  | .ok (_, w1) =>
      if folder_path ∈ w1.dirs then
        match listdir folder_path w1 with
        | .error e => .error e
        | .ok (files, w2) =>
            .ok ([("status", .str "exists"),
                  ("message", .str ("Folder 'lessons/" ++ folder_name ++
                    "' already exists")),
                  ("folder_path", .str folder_path),
                  ("existing_files", .vlist (files.map Value.str))], w2)
      else
        match makedirs folder_path w1 with
        | .error e => .error e
        | .ok (_, w2) =>
            .ok ([("status", .str "created"),
                  ("message", .str ("Created new folder 'lessons/" ++
                    folder_name ++ "'")),
                  ("folder_path", .str folder_path),
                  ("existing_files", .vlist [])], w2)

/-- Embeds `create_tool_folder` with its `except Exception` handler
(lines 345-349). -/
def create_tool_folder (cwd tool_name : String) (w : World) :
    List (String × Value) × World :=
  match create_tool_folderBody cwd tool_name w with
  | .ok (d, w1) => (d, w1)
  | .error e =>
      ([("status", .str "error"),
        ("error_message", .str ("Failed to create folder: " ++ e))], w)

/-- The `try:` body of `save_to_tool_folder` (lines 364-382). -/
def save_to_tool_folderBody (cwd tool_name filename content : String)
    (w : World) : Except String (List (String × Value) × World) :=
  let folder_name := folderName tool_name
  let lessons_dir := pjoin cwd "lessons"
  let folder_path := pjoin lessons_dir folder_name
  match
    (if folder_path ∈ w.dirs then .ok ((), w)
     else makedirs folder_path w) with
  | .error e => .error e
  | .ok (_, w1) =>
      let file_path := pjoin folder_path filename
      match writeTextFile file_path content w1 with
      | .error e => .error e
      | .ok (_, w2) =>
          .ok ([("status", .str "success"),
                ("message", .str ("Saved '" ++ filename ++ "' to lessons/" ++
                  folder_name ++ "/")),
                ("file_path", .str file_path)], w2)

/-- Embeds `save_to_tool_folder` with its `except Exception` handler
(lines 383-387). -/
def save_to_tool_folder (cwd tool_name filename content : String)
    (w : World) : List (String × Value) × World :=
  match save_to_tool_folderBody cwd tool_name filename content w with
  | .ok (d, w1) => (d, w1)
  | .error e =>
      ([("status", .str "error"),
        ("error_message", .str ("Failed to save file: " ++ e))], w)

/-- The `try:` body of `read_from_tool_folder` (lines 401-422). -/
def read_from_tool_folderBody (cwd tool_name filename : String) (w : World) :
    Except String (List (String × Value) × World) :=
  let folder_name := folderName tool_name
  let lessons_dir := pjoin cwd "lessons"
  let folder_path := pjoin lessons_dir folder_name
  let file_path := pjoin folder_path filename
  if ¬ (getKey w.files file_path).isSome then
    .ok ([("status", .str "not_found"),
          ("message", .str ("File '" ++ filename ++ "' not found in lessons/" ++
            folder_name ++ "/")),
          ("content", Value.null)], w)
  else
    match readTextFile file_path w with
    | .error e => .error e
    | .ok (content, w1) =>
        .ok ([("status", .str "success"),
              ("message", .str ("Read '" ++ filename ++ "' from lessons/" ++
                folder_name ++ "/")),
              ("content", .str content),
              ("file_path", .str file_path)], w1)

/-- Embeds `read_from_tool_folder` with its `except Exception` handler
(lines 423-428). -/
def read_from_tool_folder (cwd tool_name filename : String) (w : World) :
    List (String × Value) × World :=
  match read_from_tool_folderBody cwd tool_name filename w with
  | .ok (d, w1) => (d, w1)
  | .error e =>
      ([("status", .str "error"),
        ("error_message", .str ("Failed to read file: " ++ e)),
        ("content", Value.null)], w)

/-! ## Module assembler: `assemble_module_file`, `src/main.py:431-481` -/

/-- The f-string document built at lines 447-468, with `datetime.now()`
passed in as `now`. -/
def moduleContent (now : String) (module_number : Int)
    (lesson examples quiz : String) : String :=
  "# Module " ++ toString module_number ++
  "\n\n## 📚 Lesson\n\n" ++ lesson ++
  "\n\n---\n\n## 💻 Code Examples\n\n" ++ examples ++
  "\n\n---\n\n## 📝 Quiz\n\n" ++ quiz ++
  "\n\n---\n\n*Generated: " ++ now ++ "*\n"

/-- Models `os.path.abspath` over `os.getcwd() = cwd` for the relative paths the
source passes to it (no `.` or `..` components arise). -/
def abspath (cwd rel : String) : String := pjoin cwd rel

/-- Embeds `assemble_module_file` (lines 445-481).  It calls the already-guarded
`save_to_tool_folder`, then adds `absolute_path`, computed at line 474 as
`os.path.abspath(os.path.join("lessons", tool_name, filename))` — note:
from the raw `tool_name`, not the folder slug.  Nothing after the inner
call can raise, so the outer handler is never reached. -/
def assemble_module_file (cwd now tool_name : String) (module_number : Int)
    (lesson examples quiz : String) (w : World) :
    List (String × Value) × World :=
  let module_content := moduleContent now module_number lesson examples quiz
  let filename := "module_" ++ toString module_number ++ ".md"
  let r := save_to_tool_folder cwd tool_name filename module_content w
  let absolute_path :=
    abspath cwd (pjoin (pjoin "lessons" tool_name) filename)
  (setKey r.1 "absolute_path" (.str absolute_path), r.2)

/-! ## Helper lemmas on the association-list operations -/

theorem getKey_setKey_self {α : Type} (l : List (String × α)) (k : String)
    (v : α) : getKey (setKey l k v) k = some v := by
  induction l with
  | nil => simp [getKey, setKey]
  | cons p rest ih =>
      by_cases h : p.1 = k <;> simp [getKey, setKey, h, ih]

theorem getKey_setKey_ne {α : Type} (l : List (String × α)) (k k' : String)
    (v : α) (h : k' ≠ k) : getKey (setKey l k v) k' = getKey l k' := by
  induction l with
  | nil => simp [getKey, setKey, Ne.symm h]
  | cons p rest ih =>
      by_cases hp : p.1 = k
      · simp [getKey, setKey, hp, Ne.symm h]
      · simp only [setKey, hp, if_false, getKey]
        by_cases hp' : p.1 = k' <;> simp [hp', ih]

theorem getKey_map {α β : Type} (l : List (String × α)) (f : α → β)
    (k : String) :
    getKey (l.map (fun p => (p.1, f p.2))) k = (getKey l k).map f := by
  induction l with
  | nil => simp [getKey]
  | cons p rest ih =>
      by_cases h : p.1 = k <;> simp [getKey, h, ih]

/-- C1: starting a session stores `current_module = 0`; a `next_module`
call on an existing record increments the stored `current_module` by
exactly 1; a `complete_module` call appends an entry whose
`module_number` is the record's `current_module` at the time of the
call. -/
theorem c1_session_ordering
    (now user_id tool_name module_name : String) (w : World)
    (hok : w.ok = true) :
    ((getKey (manage_learning_session now user_id tool_name "start"
          module_name w).2.sessions
        (sessionFile user_id tool_name)).map Session.current_module
      = some 0)
    ∧ (∀ s : Session,
        getKey w.sessions (sessionFile user_id tool_name) = some s →
        getKey (manage_learning_session now user_id tool_name "next_module"
            module_name w).2.sessions
          (sessionFile user_id tool_name)
          = some { s with current_module := s.current_module + 1 })
    ∧ (∀ s : Session,
        getKey w.sessions (sessionFile user_id tool_name) = some s →
        ∃ e : Completion,
          getKey (manage_learning_session now user_id tool_name
              "complete_module" module_name w).2.sessions
            (sessionFile user_id tool_name)
            = some { s with
                modules_completed := s.modules_completed ++ [e] }
          ∧ e.module_number = s.current_module) := by
  refine ⟨?_, ?_, ?_⟩
  · simp [manage_learning_session, manageBody, writeSession, hok,
      getKey_setKey_self]
  · intro s hs
    simp [manage_learning_session, manageBody, readSession, writeSession,
      hok, hs, getKey_setKey_self]
  · intro s hs
    refine ⟨{ module_number := s.current_module,
              module_name := if module_name ≠ "" then module_name
                else "Module " ++ toString s.current_module,
              completed_at := now }, ?_, rfl⟩
    simp [manage_learning_session, manageBody, readSession, writeSession,
      hok, hs, getKey_setKey_self]

/-- Witness for `c1_session_ordering` at a concrete input. -/
theorem c1_session_ordering_witness :
    World.empty.ok = true
    ∧ ((getKey (manage_learning_session "T" "u" "t" "start" ""
          World.empty).2.sessions
        (sessionFile "u" "t")).map Session.current_module = some 0) := by
  exact ⟨rfl, (c1_session_ordering "T" "u" "t" "" World.empty rfl).1⟩

/-- C2: on a (user, tool) pair with no session file, `next_module` and
`complete_module` return a `status = "error"` dictionary and leave the
filesystem unchanged (no file is created); and any action outside
start / next_module / complete_module / get_current returns a
`status = "error"` dictionary and leaves the filesystem unchanged. -/
theorem c2_missing_session_and_unknown_action
    (now user_id tool_name module_name : String) (w : World)
    (habs : getKey w.sessions (sessionFile user_id tool_name) = none) :
    (getKey (manage_learning_session now user_id tool_name "next_module"
        module_name w).1 "status" = some (.str "error")
      ∧ (manage_learning_session now user_id tool_name "next_module"
          module_name w).2 = w)
    ∧ (getKey (manage_learning_session now user_id tool_name
        "complete_module" module_name w).1 "status" = some (.str "error")
      ∧ (manage_learning_session now user_id tool_name "complete_module"
          module_name w).2 = w)
    ∧ (∀ action : String, action ≠ "start" → action ≠ "next_module" →
        action ≠ "complete_module" → action ≠ "get_current" →
        getKey (manage_learning_session now user_id tool_name action
            module_name w).1 "status" = some (.str "error")
          ∧ (manage_learning_session now user_id tool_name action
              module_name w).2 = w) := by
  refine ⟨?_, ?_, ?_⟩
  · simp [manage_learning_session, manageBody, habs, getKey]
  · simp [manage_learning_session, manageBody, habs, getKey]
  · intro action h1 h2 h3 h4
    simp [manage_learning_session, manageBody, h1, h2, h3, h4, getKey]

/-- Witness for `c2_missing_session_and_unknown_action` at a concrete
input, including the unknown action `"frobnicate"`. -/
theorem c2_missing_session_and_unknown_action_witness :
    getKey World.empty.sessions (sessionFile "u" "t") = none
    ∧ (getKey (manage_learning_session "T" "u" "t" "next_module" ""
        World.empty).1 "status" = some (.str "error"))
    ∧ (getKey (manage_learning_session "T" "u" "t" "frobnicate" ""
        World.empty).1 "status" = some (.str "error"))
    ∧ (manage_learning_session "T" "u" "t" "frobnicate" ""
        World.empty).2 = World.empty := by
  have h := c2_missing_session_and_unknown_action "T" "u" "t" "" World.empty
    rfl
  have hf := h.2.2 "frobnicate" (by decide) (by decide) (by decide)
    (by decide)
  exact ⟨rfl, h.1.1, hf.1, hf.2⟩

/-- C3 counterexample: the session filename slug (`src/main.py:209`) only
replaces spaces, not hyphens, so the tool names `"lang chain"` and
`"lang-chain"` yield DIFFERENT session files, refuting the claim that all
three entity kinds share the full space-and-hyphen normalization. -/
theorem c3_counterexample :
    sessionFile "u" "lang chain" = "session_u_lang_chain.json"
    ∧ sessionFile "u" "lang-chain" = "session_u_lang-chain.json"
    ∧ sessionFile "u" "lang chain" ≠ sessionFile "u" "lang-chain" := by
  exact ⟨by decide, by decide, by decide⟩

/-- C3 (amended): the lesson folder slug applies the full normalization
(lowercase, spaces→underscore, hyphens→underscore), so `"FastAPI"` maps to
folder `fastapi`, `"Lang Chain"` to `lang_chain`, and
`"lang chain"` / `"lang-chain"` share a folder; but the session filename
slug lowercases and replaces only spaces (hyphens are preserved), so
`"lang chain"` and `"lang-chain"` yield different session files; and the
progress store keys tool entries by the raw, unnormalized tool name. -/
theorem c3_slug_normalization_amended :
    folderName "FastAPI" = "fastapi"
    ∧ folderName "Lang Chain" = "lang_chain"
    ∧ folderName "lang chain" = folderName "lang-chain"
    ∧ folderName "LangChain" = "langchain"
    ∧ sessionFile "u" "lang chain" = "session_u_lang_chain.json"
    ∧ sessionFile "u" "lang-chain" = "session_u_lang-chain.json"
    ∧ ((getKey (track_progress "T" "u" "Lang Chain" "m" true
          World.empty).2.progress (progressFile "u")).map
        (fun pd => pd.tools.map Prod.fst)) = some ["Lang Chain"] := by
  exact ⟨by decide, by decide, by decide, by decide, by decide, by decide,
    by decide⟩

/-- For any action other than `start`, a stored session record is either
left unchanged, has its `current_module` incremented by one
(`next_module`), or has one completion entry appended
(`complete_module`). -/
theorem manage_stored_cases
    (now user_id tool_name action module_name : String) (w : World)
    (s : Session)
    (hs : getKey w.sessions (sessionFile user_id tool_name) = some s)
    (hne : action ≠ "start") :
    getKey (manage_learning_session now user_id tool_name action
        module_name w).2.sessions (sessionFile user_id tool_name) = some s
    ∨ getKey (manage_learning_session now user_id tool_name action
        module_name w).2.sessions (sessionFile user_id tool_name)
      = some { s with current_module := s.current_module + 1 }
    ∨ ∃ e : Completion,
        getKey (manage_learning_session now user_id tool_name action
          module_name w).2.sessions (sessionFile user_id tool_name)
        = some { s with
            modules_completed := s.modules_completed ++ [e] } := by
  by_cases h2 : action = "next_module"
  · subst h2
    by_cases hok : w.ok = true
    · right; left
      simp [manage_learning_session, manageBody, readSession, writeSession,
        hok, hs, getKey_setKey_self, hne]
    · left
      have hok' : w.ok = false := by simpa using hok
      simp [manage_learning_session, manageBody, readSession, writeSession,
        hok', hs, hne]
  · by_cases h3 : action = "complete_module"
    · subst h3
      by_cases hok : w.ok = true
      · right; right
        refine ⟨{ module_number := s.current_module,
                  module_name := if module_name ≠ "" then module_name
                    else "Module " ++ toString s.current_module,
                  completed_at := now }, ?_⟩
        simp [manage_learning_session, manageBody, readSession,
          writeSession, hok, hs, getKey_setKey_self, hne]
      · left
        have hok' : w.ok = false := by simpa using hok
        simp [manage_learning_session, manageBody, readSession,
          writeSession, hok', hs, hne]
    · by_cases h4 : action = "get_current"
      · subst h4
        by_cases hok : w.ok = true
        · left
          simp [manage_learning_session, manageBody, readSession, hok, hs,
            hne]
        · left
          have hok' : w.ok = false := by simpa using hok
          simp [manage_learning_session, manageBody, readSession, hok', hs,
            hne]
      · left
        simp [manage_learning_session, manageBody, hne, h2, h3, h4, hs]

/-- C4 counterexample: from an empty filesystem, `start` then
`next_module` leaves the stored `current_module` at 1, and a second
`start` overwrites the record back to `current_module = 0` — the stored
value decreases, refuting the claim that it never decreases when `start`
is issued over an existing record. -/
theorem c4_counterexample :
    ((getKey (manage_learning_session "T" "u" "t" "next_module" ""
        (manage_learning_session "T" "u" "t" "start" ""
          World.empty).2).2.sessions
      (sessionFile "u" "t")).map Session.current_module = some 1)
    ∧ ((getKey (manage_learning_session "T" "u" "t" "start" ""
        (manage_learning_session "T" "u" "t" "next_module" ""
          (manage_learning_session "T" "u" "t" "start" ""
            World.empty).2).2).2.sessions
      (sessionFile "u" "t")).map Session.current_module = some 0)
    ∧ (0 : Int) < 1 := by
  exact ⟨by decide, by decide, by decide⟩

/-- C4 (amended): the stored `current_module` never decreases under
`next_module`, `complete_module`, `get_current`, or unrecognized actions;
a `start` action, however, unconditionally overwrites the record and
resets `current_module` to 0, which decreases it whenever a prior record
had advanced. -/
theorem c4_current_module_monotone_amended
    (now user_id tool_name action module_name : String) (w : World)
    (s : Session)
    (hs : getKey w.sessions (sessionFile user_id tool_name) = some s) :
    (action ≠ "start" →
      ∃ s' : Session,
        getKey (manage_learning_session now user_id tool_name action
            module_name w).2.sessions (sessionFile user_id tool_name)
          = some s'
        ∧ s.current_module ≤ s'.current_module)
    ∧ (action = "start" → w.ok = true →
        (getKey (manage_learning_session now user_id tool_name action
            module_name w).2.sessions
          (sessionFile user_id tool_name)).map Session.current_module
        = some 0) := by
  constructor
  · intro hne
    rcases manage_stored_cases now user_id tool_name action module_name w s
        hs hne with h | h | ⟨e, h⟩
    · exact ⟨s, h, le_refl _⟩
    · exact ⟨_, h, by simp⟩
    · exact ⟨_, h, le_refl _⟩
  · intro ha hok
    subst ha
    simp [manage_learning_session, manageBody, writeSession, hok,
      getKey_setKey_self]

/-- Witness for `c4_current_module_monotone_amended` at a concrete
input: a record with `current_module = 1` survives `complete_module`
without decreasing. -/
theorem c4_current_module_monotone_amended_witness :
    getKey (manage_learning_session "T" "u" "t" "next_module" ""
        (manage_learning_session "T" "u" "t" "start" ""
          World.empty).2).2.sessions (sessionFile "u" "t")
      = some { user_id := "u", tool_name := "t", started := "T",
               current_module := 1, modules_completed := [],
               status := "in_progress" }
    ∧ ∃ s' : Session,
        getKey (manage_learning_session "T" "u" "t" "complete_module" ""
            (manage_learning_session "T" "u" "t" "next_module" ""
              (manage_learning_session "T" "u" "t" "start" ""
                World.empty).2).2).2.sessions (sessionFile "u" "t")
          = some s'
        ∧ (1 : Int) ≤ s'.current_module := by
  refine ⟨by decide, ?_⟩
  exact (c4_current_module_monotone_amended "T" "u" "t" "complete_module" ""
    (manage_learning_session "T" "u" "t" "next_module" ""
      (manage_learning_session "T" "u" "t" "start" "" World.empty).2).2
    { user_id := "u", tool_name := "t", started := "T",
      current_module := 1, modules_completed := [],
      status := "in_progress" } (by decide)).1 (by decide)

/-- C5 counterexample: for tool `"Demo"` the module file is written at
the slug path `lessons/demo/module_1.md`, but the returned
`absolute_path` is computed from the raw tool name (`src/main.py:474`)
and points at `lessons/Demo/module_1.md`, where no file was written —
refuting the claim that `absolute_path` is the path of the file actually
written under the tool's slug directory. -/
theorem c5_counterexample :
    getKey (assemble_module_file "/app" "T" "Demo" 1 "L" "E" "Q"
      World.empty).1 "file_path"
      = some (.str "/app/lessons/demo/module_1.md")
    ∧ getKey (assemble_module_file "/app" "T" "Demo" 1 "L" "E" "Q"
        World.empty).1 "absolute_path"
      = some (.str "/app/lessons/Demo/module_1.md")
    ∧ getKey (assemble_module_file "/app" "T" "Demo" 1 "L" "E" "Q"
        World.empty).2.files "/app/lessons/demo/module_1.md"
      = some (moduleContent "T" 1 "L" "E" "Q")
    ∧ getKey (assemble_module_file "/app" "T" "Demo" 1 "L" "E" "Q"
        World.empty).2.files "/app/lessons/Demo/module_1.md" = none
    ∧ ("/app/lessons/Demo/module_1.md" : String)
      ≠ "/app/lessons/demo/module_1.md" := by
  exact ⟨rfl, rfl, rfl, rfl, by decide⟩

/-- C5 (amended): `assemble_module_file` delegates to
`save_to_tool_folder` under the deterministic filename `module_{n}.md`
and returns that store's result augmented with an `absolute_path` field;
but `absolute_path` is computed from the raw tool name
(`lessons/{tool_name}/module_{n}.md`), so it equals the path of the file
actually written under the slug directory only when the raw tool name is
its own slug. -/
theorem c5_assemble_delegation_amended
    (cwd now tool_name : String) (module_number : Int)
    (lesson examples quiz : String) (w : World) :
    ((assemble_module_file cwd now tool_name module_number lesson examples
        quiz w).1
      = setKey (save_to_tool_folder cwd tool_name
          ("module_" ++ toString module_number ++ ".md")
          (moduleContent now module_number lesson examples quiz) w).1
        "absolute_path"
        (.str (abspath cwd (pjoin (pjoin "lessons" tool_name)
          ("module_" ++ toString module_number ++ ".md")))))
    ∧ ((assemble_module_file cwd now tool_name module_number lesson examples
        quiz w).2
      = (save_to_tool_folder cwd tool_name
          ("module_" ++ toString module_number ++ ".md")
          (moduleContent now module_number lesson examples quiz) w).2)
    ∧ (folderName tool_name = tool_name →
        abspath cwd (pjoin (pjoin "lessons" tool_name)
          ("module_" ++ toString module_number ++ ".md"))
        = pjoin (pjoin (pjoin cwd "lessons") (folderName tool_name))
            ("module_" ++ toString module_number ++ ".md")) := by
  refine ⟨rfl, rfl, ?_⟩
  intro h
  apply String.ext
  simp [abspath, pjoin, h, String.data_append, List.append_assoc]

/-- The suffix of `s` following the first occurrence of `t`, or `none`
when `t` does not occur in `s`. -/
def dropAfterFirst (s t : List Char) : Option (List Char) :=
  match s with
  | [] => if t.isEmpty then some [] else none
  | c :: rest =>
      if t.isPrefixOf (c :: rest) then some ((c :: rest).drop t.length)
      else dropAfterFirst rest t

/-- Whether the given patterns all occur in `s`, in the given order,
each occurrence starting after the end of the previous one. -/
def inOrder (s : List Char) : List (List Char) → Bool
  | [] => true
  | t :: ts =>
      match dropAfterFirst s t with
      | none => false
      | some s2 => inOrder s2 ts

/-- Whether the given substrings all occur in `s`, in order. -/
def containsInOrder (s : String) (ps : List String) : Bool :=
  inOrder s.data (ps.map String.data)

/-- Witness for `c5_assemble_delegation_amended` at a concrete input
whose tool name is already a slug. -/
theorem c5_assemble_delegation_amended_witness :
    folderName "demo" = "demo"
    ∧ abspath "/app" (pjoin (pjoin "lessons" "demo")
        ("module_" ++ toString (1 : Int) ++ ".md"))
      = pjoin (pjoin (pjoin "/app" "lessons") (folderName "demo"))
          ("module_" ++ toString (1 : Int) ++ ".md") := by
  exact ⟨by decide,
    (c5_assemble_delegation_amended "/app" "T" "demo" 1 "L" "E" "Q"
      World.empty).2.2 (by decide)⟩

/-- Runs `n` successive `track_progress` calls with the same arguments. -/
def trackN (now user_id tool_name milestone : String) (completed : Bool) :
    Nat → World → World
  | 0, w => w
  | n + 1, w =>
      (track_progress now user_id tool_name milestone completed
        (trackN now user_id tool_name milestone completed n w)).2

/-- The progress store holds, for this user and tool, an entry with
exactly `k` milestones. -/
def ProgressInv (user_id tool_name : String) (k : Nat) (w : World) : Prop :=
  ∃ pd tp, getKey w.progress (progressFile user_id) = some pd
    ∧ getKey pd.tools tool_name = some tp
    ∧ tp.milestones.length = k

/-- The number of milestones recorded in the summary's `tools` entry for
a given tool (`none` when the summary has no such entry). -/
def summaryMilestones (d : List (String × Value)) (tool_name : String) :
    Option Nat :=
  match getKey d "tools" with
  | some (.dict ts) =>
      match getKey ts tool_name with
      | some (.dict fields) =>
          match getKey fields "milestones" with
          | some (.vlist l) => some l.length
          | _ => none
      | _ => none
  | _ => none

theorem track_progress_start (now user_id tool_name milestone : String)
    (c : Bool) (w : World) (hok : w.ok = true)
    (hpf : getKey w.progress (progressFile user_id) = none) :
    ProgressInv user_id tool_name 1
      (track_progress now user_id tool_name milestone c w).2
    ∧ (track_progress now user_id tool_name milestone c w).2.ok = true := by
  simp [track_progress, track_progressBody, readProgress, writeProgress,
    hok, hpf, getKey, getKey_setKey_self, ProgressInv]

theorem track_progress_step (now user_id tool_name milestone : String)
    (c : Bool) (w : World) (k : Nat) (hok : w.ok = true)
    (hinv : ProgressInv user_id tool_name k w) :
    ProgressInv user_id tool_name (k + 1)
      (track_progress now user_id tool_name milestone c w).2
    ∧ (track_progress now user_id tool_name milestone c w).2.ok = true := by
  obtain ⟨pd, tp, hpf, htp, hlen⟩ := hinv
  simp [track_progress, track_progressBody, readProgress, writeProgress,
    hok, hpf, htp, getKey_setKey_self, ProgressInv, hlen]

theorem trackN_inv (now user_id tool_name milestone : String) (c : Bool)
    (w : World) (hok : w.ok = true)
    (hpf : getKey w.progress (progressFile user_id) = none) (n : Nat)
    (hn : 1 ≤ n) :
    ProgressInv user_id tool_name n
      (trackN now user_id tool_name milestone c n w)
    ∧ (trackN now user_id tool_name milestone c n w).ok = true := by
  induction n with
  | zero => omega
  | succ k ih =>
      rcases Nat.eq_zero_or_pos k with hk | hk
      · subst hk
        simpa [trackN] using
          track_progress_start now user_id tool_name milestone c w hok hpf
      · obtain ⟨hinv, hok'⟩ := ih hk
        simpa [trackN] using
          track_progress_step now user_id tool_name milestone c _ k hok'
            hinv

/-- C7: starting from a filesystem with no progress file for the user,
after `n ≥ 1` calls to `track_progress` for a (user, tool) pair, the
summary returned by `get_progress_summary` has a `tools` entry for that
tool whose `milestones` list has length exactly `n`. -/
theorem c7_progress_roundtrip
    (now user_id tool_name milestone : String) (c : Bool) (w : World)
    (n : Nat) (hok : w.ok = true)
    (hpf : getKey w.progress (progressFile user_id) = none)
    (hn : 1 ≤ n) :
    summaryMilestones
      (get_progress_summary user_id
        (trackN now user_id tool_name milestone c n w)).1 tool_name
      = some n := by
  obtain ⟨⟨pd, tp, hpd, htp, hlen⟩, hok'⟩ :=
    trackN_inv now user_id tool_name milestone c w hok hpf n hn
  have hmap : getKey (List.map (fun p => (p.1, toolProgressValue p.2))
      pd.tools) tool_name = some (toolProgressValue tp) := by
    rw [getKey_map, htp]; rfl
  simp [get_progress_summary, get_progress_summaryBody, readProgress,
    summaryMilestones, hok', hpd, getKey, hmap]
  simp [toolProgressValue, getKey, hlen]

/-- Witness for `c7_progress_roundtrip`: two writes produce a summary
entry with two milestones. -/
theorem c7_progress_roundtrip_witness :
    World.empty.ok = true
    ∧ getKey World.empty.progress (progressFile "u") = none
    ∧ summaryMilestones
        (get_progress_summary "u"
          (trackN "T" "u" "t" "m" true 2 World.empty)).1 "t" = some 2 := by
  exact ⟨rfl, rfl,
    c7_progress_roundtrip "T" "u" "t" "m" true World.empty 2 rfl rfl
      (by decide)⟩

/-- A joined path is strictly longer than its left component, hence
distinct from it. -/
theorem pjoin_ne_left (a b : String) : pjoin a b ≠ a := by
  intro h
  have h2 := congrArg String.length h
  simp [pjoin, String.length_append] at h2
  have h3 : "/".length = 1 := by decide
  omega

theorem create_tool_folder_absent (cwd tool_name : String) (w : World)
    (hok : w.ok = true)
    (habs : pjoin (pjoin cwd "lessons") (folderName tool_name) ∉ w.dirs) :
    getKey (create_tool_folder cwd tool_name w).1 "status"
      = some (.str "created")
    ∧ getKey (create_tool_folder cwd tool_name w).1 "existing_files"
      = some (.vlist [])
    ∧ (create_tool_folder cwd tool_name w).2.files = w.files
    ∧ pjoin (pjoin cwd "lessons") (folderName tool_name)
        ∈ (create_tool_folder cwd tool_name w).2.dirs
    ∧ (create_tool_folder cwd tool_name w).2.ok = true := by
  by_cases hl : pjoin cwd "lessons" ∈ w.dirs
  · simp [create_tool_folder, create_tool_folderBody, makedirs, listdir,
      hok, hl, habs, getKey]
  · have hne : pjoin (pjoin cwd "lessons") (folderName tool_name)
        ≠ pjoin cwd "lessons" := pjoin_ne_left _ _
    simp [create_tool_folder, create_tool_folderBody, makedirs, listdir,
      hok, hl, habs, hne, getKey]

theorem create_tool_folder_present (cwd tool_name : String) (w : World)
    (hok : w.ok = true)
    (hmem : pjoin (pjoin cwd "lessons") (folderName tool_name) ∈ w.dirs) :
    getKey (create_tool_folder cwd tool_name w).1 "status"
      = some (.str "exists")
    ∧ getKey (create_tool_folder cwd tool_name w).1 "existing_files"
      = some (.vlist ((filesIn
          (pjoin (pjoin cwd "lessons") (folderName tool_name))
          w.files).map Value.str))
    ∧ (create_tool_folder cwd tool_name w).2.files = w.files
    ∧ pjoin (pjoin cwd "lessons") (folderName tool_name)
        ∈ (create_tool_folder cwd tool_name w).2.dirs
    ∧ (create_tool_folder cwd tool_name w).2.ok = true := by
  by_cases hl : pjoin cwd "lessons" ∈ w.dirs
  · simp [create_tool_folder, create_tool_folderBody, makedirs, listdir,
      hok, hl, hmem, getKey]
  · simp [create_tool_folder, create_tool_folderBody, makedirs, listdir,
      hok, hl, hmem, getKey]

/-- C8: `create_tool_folder` on an absent folder returns
`status = "created"` with an empty file list; calling it again for the
same tool returns `status = "exists"`, reports the files lying in the
folder, and leaves the stored files untouched. -/
theorem c8_create_folder_idempotent (cwd tool_name : String) (w : World)
    (hok : w.ok = true) :
    (pjoin (pjoin cwd "lessons") (folderName tool_name) ∉ w.dirs →
      getKey (create_tool_folder cwd tool_name w).1 "status"
        = some (.str "created")
      ∧ getKey (create_tool_folder cwd tool_name w).1 "existing_files"
        = some (.vlist []))
    ∧ (pjoin (pjoin cwd "lessons") (folderName tool_name) ∈ w.dirs →
      getKey (create_tool_folder cwd tool_name w).1 "status"
        = some (.str "exists")
      ∧ getKey (create_tool_folder cwd tool_name w).1 "existing_files"
        = some (.vlist ((filesIn
            (pjoin (pjoin cwd "lessons") (folderName tool_name))
            w.files).map Value.str)))
    ∧ (getKey (create_tool_folder cwd tool_name
          (create_tool_folder cwd tool_name w).2).1 "status"
        = some (.str "exists")
      ∧ (create_tool_folder cwd tool_name
          (create_tool_folder cwd tool_name w).2).2.files
        = (create_tool_folder cwd tool_name w).2.files
      ∧ (create_tool_folder cwd tool_name w).2.files = w.files) := by
  refine ⟨?_, ?_, ?_⟩
  · intro habs
    have h := create_tool_folder_absent cwd tool_name w hok habs
    exact ⟨h.1, h.2.1⟩
  · intro hmem
    have h := create_tool_folder_present cwd tool_name w hok hmem
    exact ⟨h.1, h.2.1⟩
  · by_cases hmem : pjoin (pjoin cwd "lessons") (folderName tool_name)
        ∈ w.dirs
    · have h1 := create_tool_folder_present cwd tool_name w hok hmem
      have h2 := create_tool_folder_present cwd tool_name
        (create_tool_folder cwd tool_name w).2 h1.2.2.2.2 h1.2.2.2.1
      exact ⟨h2.1, h2.2.2.1, h1.2.2.1⟩
    · have h1 := create_tool_folder_absent cwd tool_name w hok hmem
      have h2 := create_tool_folder_present cwd tool_name
        (create_tool_folder cwd tool_name w).2 h1.2.2.2.2 h1.2.2.2.1
      exact ⟨h2.1, h2.2.2.1, h1.2.2.1⟩

/-- Witness for `c8_create_folder_idempotent` at a concrete input. -/
theorem c8_create_folder_idempotent_witness :
    World.empty.ok = true
    ∧ (pjoin (pjoin "/app" "lessons") (folderName "Demo")
        ∉ World.empty.dirs)
    ∧ getKey (create_tool_folder "/app" "Demo" World.empty).1 "status"
        = some (.str "created")
    ∧ getKey (create_tool_folder "/app" "Demo"
        (create_tool_folder "/app" "Demo" World.empty).2).1 "status"
        = some (.str "exists") := by
  have h := c8_create_folder_idempotent "/app" "Demo" World.empty rfl
  exact ⟨rfl, by decide, (h.1 (by decide)).1, h.2.2.1⟩

/-- C6: assembling module 1 for tool `"Demo"` with lesson `"L"`,
examples `"E"`, quiz `"Q"` writes the file `lessons/demo/module_1.md`,
and its content contains the literal substrings `"## 📚 Lesson\n\nL"`,
`"## 💻 Code Examples\n\nE"` and `"## 📝 Quiz\n\nQ"`, in that order
(shown here at the generation timestamp `"2024-01-01 00:00"`). -/
theorem c6_assembler_scenario :
    getKey (assemble_module_file "/app" "2024-01-01 00:00" "Demo" 1
        "L" "E" "Q" World.empty).2.files "/app/lessons/demo/module_1.md"
      = some (moduleContent "2024-01-01 00:00" 1 "L" "E" "Q")
    ∧ containsInOrder (moduleContent "2024-01-01 00:00" 1 "L" "E" "Q")
        ["## 📚 Lesson\n\nL", "## 💻 Code Examples\n\nE",
         "## 📝 Quiz\n\nQ"] = true := by
  exact ⟨rfl, by decide⟩

/-- C10: `complete_module` with an empty `module_name` (the parameter's
default) records the default label `Module {current_module}`, exactly as
when the name is omitted; a non-empty name is recorded verbatim. -/
theorem c10_complete_module_default_name
    (now user_id tool_name module_name : String) (w : World) (s : Session)
    (hok : w.ok = true)
    (hs : getKey w.sessions (sessionFile user_id tool_name) = some s) :
    ∃ e : Completion,
      getKey (manage_learning_session now user_id tool_name
          "complete_module" module_name w).2.sessions
        (sessionFile user_id tool_name)
        = some { s with modules_completed := s.modules_completed ++ [e] }
      ∧ (module_name = "" →
          e.module_name = "Module " ++ toString s.current_module)
      ∧ (module_name ≠ "" → e.module_name = module_name) := by
  refine ⟨{ module_number := s.current_module,
            module_name := if module_name ≠ "" then module_name
              else "Module " ++ toString s.current_module,
            completed_at := now }, ?_, ?_, ?_⟩
  · simp [manage_learning_session, manageBody, readSession, writeSession,
      hok, hs, getKey_setKey_self]
  · intro h; simp [h]
  · intro h; simp [h]

/-- Witness for `c10_complete_module_default_name`: completing the
current module 0 with the empty name records the label `"Module 0"`. -/
theorem c10_complete_module_default_name_witness :
    ∃ e : Completion,
      getKey (manage_learning_session "T" "u" "t" "complete_module" ""
          (manage_learning_session "T" "u" "t" "start" ""
            World.empty).2).2.sessions (sessionFile "u" "t")
        = some { user_id := "u", tool_name := "t", started := "T",
                 current_module := 0, modules_completed := [e],
                 status := "in_progress" }
      ∧ e.module_name = "Module 0" := by
  obtain ⟨e, h1, h2, _⟩ := c10_complete_module_default_name "T" "u" "t" ""
    (manage_learning_session "T" "u" "t" "start" "" World.empty).2
    { user_id := "u", tool_name := "t", started := "T",
      current_module := 0, modules_completed := [],
      status := "in_progress" } (by decide) (by decide)
  exact ⟨e, h1, (h2 rfl).trans (by decide)⟩

/-! ## Structured error results (claim C9) -/

theorem create_tool_folder_status (cwd tool_name : String) (w : World) :
    (getKey (create_tool_folder cwd tool_name w).1 "status").isSome := by
  by_cases hok : w.ok <;>
  by_cases hl : pjoin cwd "lessons" ∈ w.dirs <;>
  by_cases hf : pjoin (pjoin cwd "lessons") (folderName tool_name)
      ∈ w.dirs <;>
  simp [create_tool_folder, create_tool_folderBody, makedirs, listdir,
    hok, hl, hf, getKey, pjoin_ne_left]

theorem create_tool_folder_fault (cwd tool_name : String) (w : World)
    (hbad : w.ok = false) :
    getKey (create_tool_folder cwd tool_name w).1 "status"
      = some (.str "error")
    ∧ (getKey (create_tool_folder cwd tool_name w).1
        "error_message").isSome := by
  by_cases hl : pjoin cwd "lessons" ∈ w.dirs <;>
  by_cases hf : pjoin (pjoin cwd "lessons") (folderName tool_name)
      ∈ w.dirs <;>
  simp [create_tool_folder, create_tool_folderBody, makedirs, listdir,
    hbad, hl, hf, getKey, pjoin_ne_left]

theorem save_to_tool_folder_status (cwd tool_name filename content : String)
    (w : World) :
    (getKey (save_to_tool_folder cwd tool_name filename content w).1
      "status").isSome := by
  by_cases hok : w.ok <;>
  by_cases hf : pjoin (pjoin cwd "lessons") (folderName tool_name)
      ∈ w.dirs <;>
  simp [save_to_tool_folder, save_to_tool_folderBody, makedirs,
    writeTextFile, hok, hf, getKey]

theorem save_to_tool_folder_fault (cwd tool_name filename content : String)
    (w : World) (hbad : w.ok = false) :
    getKey (save_to_tool_folder cwd tool_name filename content w).1
      "status" = some (.str "error")
    ∧ (getKey (save_to_tool_folder cwd tool_name filename content w).1
        "error_message").isSome := by
  by_cases hf : pjoin (pjoin cwd "lessons") (folderName tool_name)
      ∈ w.dirs <;>
  simp [save_to_tool_folder, save_to_tool_folderBody, makedirs,
    writeTextFile, hbad, hf, getKey]

theorem read_from_tool_folder_status (cwd tool_name filename : String)
    (w : World) :
    (getKey (read_from_tool_folder cwd tool_name filename w).1
      "status").isSome := by
  by_cases hok : w.ok <;>
  rcases hf : getKey w.files (pjoin (pjoin (pjoin cwd "lessons")
      (folderName tool_name)) filename) with _ | content <;>
  simp [read_from_tool_folder, read_from_tool_folderBody, readTextFile,
    hok, hf, getKey]

theorem read_from_tool_folder_fault (cwd tool_name filename : String)
    (w : World) (hbad : w.ok = false)
    (hf : (getKey w.files (pjoin (pjoin (pjoin cwd "lessons")
      (folderName tool_name)) filename)).isSome) :
    getKey (read_from_tool_folder cwd tool_name filename w).1 "status"
      = some (.str "error")
    ∧ (getKey (read_from_tool_folder cwd tool_name filename w).1
        "error_message").isSome := by
  simp [read_from_tool_folder, read_from_tool_folderBody, readTextFile,
    hbad, hf, getKey]

theorem track_progress_status (now user_id tool_name milestone : String)
    (c : Bool) (w : World) :
    (getKey (track_progress now user_id tool_name milestone c w).1
      "status").isSome := by
  rcases hpf : getKey w.progress (progressFile user_id) with _ | pd
  · by_cases hok : w.ok <;>
    simp [track_progress, track_progressBody, readProgress, writeProgress,
      hok, hpf, getKey, getKey_setKey_self]
  · rcases htp : getKey pd.tools tool_name with _ | tp <;>
    by_cases hok : w.ok <;>
    simp [track_progress, track_progressBody, readProgress, writeProgress,
      hok, hpf, htp, getKey, getKey_setKey_self]

theorem track_progress_fault (now user_id tool_name milestone : String)
    (c : Bool) (w : World) (hbad : w.ok = false) :
    getKey (track_progress now user_id tool_name milestone c w).1 "status"
      = some (.str "error")
    ∧ (getKey (track_progress now user_id tool_name milestone c w).1
        "error_message").isSome := by
  rcases hpf : getKey w.progress (progressFile user_id) with _ | pd <;>
  simp [track_progress, track_progressBody, readProgress, writeProgress,
    hbad, hpf, getKey, getKey_setKey_self]

theorem get_progress_summary_status (user_id : String) (w : World) :
    (getKey (get_progress_summary user_id w).1 "status").isSome := by
  by_cases hok : w.ok <;>
  rcases hpf : getKey w.progress (progressFile user_id) with _ | pd <;>
  simp [get_progress_summary, get_progress_summaryBody, readProgress,
    hok, hpf, getKey]

theorem get_progress_summary_fault (user_id : String) (w : World)
    (hbad : w.ok = false)
    (hpf : (getKey w.progress (progressFile user_id)).isSome) :
    getKey (get_progress_summary user_id w).1 "status"
      = some (.str "error")
    ∧ (getKey (get_progress_summary user_id w).1 "error_message").isSome
    := by
  simp [get_progress_summary, get_progress_summaryBody, readProgress,
    hbad, hpf, getKey]

theorem manage_learning_session_status
    (now user_id tool_name action module_name : String) (w : World) :
    (getKey (manage_learning_session now user_id tool_name action
      module_name w).1 "status").isSome := by
  by_cases h1 : action = "start" <;>
  by_cases h2 : action = "next_module" <;>
  by_cases h3 : action = "complete_module" <;>
  by_cases h4 : action = "get_current" <;>
  by_cases hok : w.ok <;>
  rcases hs : getKey w.sessions (sessionFile user_id tool_name)
    with _ | s <;>
  simp [manage_learning_session, manageBody, readSession, writeSession,
    h1, h2, h3, h4, hok, hs, getKey, getKey_setKey_self]

theorem manage_learning_session_fault
    (now user_id tool_name module_name : String) (w : World)
    (hbad : w.ok = false) :
    getKey (manage_learning_session now user_id tool_name "start"
      module_name w).1 "status" = some (.str "error")
    ∧ (getKey (manage_learning_session now user_id tool_name "start"
        module_name w).1 "error_message").isSome := by
  simp [manage_learning_session, manageBody, writeSession, hbad, getKey]

theorem assemble_module_file_status (cwd now tool_name : String)
    (module_number : Int) (lesson examples quiz : String) (w : World) :
    (getKey (assemble_module_file cwd now tool_name module_number lesson
      examples quiz w).1 "status").isSome := by
  have h := save_to_tool_folder_status cwd tool_name
    ("module_" ++ toString module_number ++ ".md")
    (moduleContent now module_number lesson examples quiz) w
  rcases hv : getKey (save_to_tool_folder cwd tool_name
      ("module_" ++ toString module_number ++ ".md")
      (moduleContent now module_number lesson examples quiz) w).1 "status"
    with _ | v
  · rw [hv] at h; simp at h
  · simp only [assemble_module_file]
    rw [getKey_setKey_ne _ _ _ _ (by decide), hv]
    simp

theorem assemble_module_file_fault (cwd now tool_name : String)
    (module_number : Int) (lesson examples quiz : String) (w : World)
    (hbad : w.ok = false) :
    getKey (assemble_module_file cwd now tool_name module_number lesson
      examples quiz w).1 "status" = some (.str "error")
    ∧ (getKey (assemble_module_file cwd now tool_name module_number lesson
        examples quiz w).1 "error_message").isSome := by
  have h := save_to_tool_folder_fault cwd tool_name
    ("module_" ++ toString module_number ++ ".md")
    (moduleContent now module_number lesson examples quiz) w hbad
  constructor
  · simp only [assemble_module_file]
    rw [getKey_setKey_ne _ _ _ _ (by decide)]
    exact h.1
  · simp only [assemble_module_file]
    rw [getKey_setKey_ne _ _ _ _ (by decide)]
    exact h.2

/-- C9: each store operation returns a dictionary carrying a `status`
key on every input (it never propagates an exception), and a filesystem
failure during the operation is converted into a structured
`{status: "error", error_message: ...}` result: unconditionally so for
`create_tool_folder`, `save_to_tool_folder`, `track_progress` and
`assemble_module_file` (which always touch the disk), and for
`read_from_tool_folder` / `get_progress_summary` /
`manage_learning_session` whenever their branch touches the disk (file
present, resp. the `start` action). -/
theorem c9_errors_returned_as_results
    (now cwd user_id tool_name action module_name milestone : String)
    (filename lesson examples quiz : String) (c : Bool)
    (module_number : Int) (w : World) :
    ((getKey (create_tool_folder cwd tool_name w).1 "status").isSome
      ∧ (w.ok = false →
          getKey (create_tool_folder cwd tool_name w).1 "status"
            = some (.str "error")
          ∧ (getKey (create_tool_folder cwd tool_name w).1
              "error_message").isSome))
    ∧ ((getKey (save_to_tool_folder cwd tool_name filename lesson w).1
          "status").isSome
      ∧ (w.ok = false →
          getKey (save_to_tool_folder cwd tool_name filename lesson w).1
            "status" = some (.str "error")
          ∧ (getKey (save_to_tool_folder cwd tool_name filename lesson
              w).1 "error_message").isSome))
    ∧ ((getKey (read_from_tool_folder cwd tool_name filename w).1
          "status").isSome
      ∧ (w.ok = false →
          (getKey w.files (pjoin (pjoin (pjoin cwd "lessons")
            (folderName tool_name)) filename)).isSome →
          getKey (read_from_tool_folder cwd tool_name filename w).1
            "status" = some (.str "error")
          ∧ (getKey (read_from_tool_folder cwd tool_name filename w).1
              "error_message").isSome))
    ∧ ((getKey (track_progress now user_id tool_name milestone c w).1
          "status").isSome
      ∧ (w.ok = false →
          getKey (track_progress now user_id tool_name milestone c w).1
            "status" = some (.str "error")
          ∧ (getKey (track_progress now user_id tool_name milestone c
              w).1 "error_message").isSome))
    ∧ ((getKey (get_progress_summary user_id w).1 "status").isSome
      ∧ (w.ok = false →
          (getKey w.progress (progressFile user_id)).isSome →
          getKey (get_progress_summary user_id w).1 "status"
            = some (.str "error")
          ∧ (getKey (get_progress_summary user_id w).1
              "error_message").isSome))
    ∧ ((getKey (manage_learning_session now user_id tool_name action
          module_name w).1 "status").isSome
      ∧ (w.ok = false →
          getKey (manage_learning_session now user_id tool_name "start"
            module_name w).1 "status" = some (.str "error")
          ∧ (getKey (manage_learning_session now user_id tool_name
              "start" module_name w).1 "error_message").isSome))
    ∧ ((getKey (assemble_module_file cwd now tool_name module_number
          lesson examples quiz w).1 "status").isSome
      ∧ (w.ok = false →
          getKey (assemble_module_file cwd now tool_name module_number
            lesson examples quiz w).1 "status" = some (.str "error")
          ∧ (getKey (assemble_module_file cwd now tool_name module_number
              lesson examples quiz w).1 "error_message").isSome)) := by
  refine ⟨⟨create_tool_folder_status cwd tool_name w,
            fun hbad => create_tool_folder_fault cwd tool_name w hbad⟩,
          ⟨save_to_tool_folder_status cwd tool_name filename lesson w,
            fun hbad =>
              save_to_tool_folder_fault cwd tool_name filename lesson w
                hbad⟩,
          ⟨read_from_tool_folder_status cwd tool_name filename w,
            fun hbad hf =>
              read_from_tool_folder_fault cwd tool_name filename w hbad
                hf⟩,
          ⟨track_progress_status now user_id tool_name milestone c w,
            fun hbad =>
              track_progress_fault now user_id tool_name milestone c w
                hbad⟩,
          ⟨get_progress_summary_status user_id w,
            fun hbad hpf => get_progress_summary_fault user_id w hbad hpf⟩,
          ⟨manage_learning_session_status now user_id tool_name action
              module_name w,
            fun hbad =>
              manage_learning_session_fault now user_id tool_name
                module_name w hbad⟩,
          ⟨assemble_module_file_status cwd now tool_name module_number
              lesson examples quiz w,
            fun hbad =>
              assemble_module_file_fault cwd now tool_name module_number
                lesson examples quiz w hbad⟩⟩

/-- Witness for `c9_errors_returned_as_results` on a concrete failing
filesystem (and, for the `status` key, also on a healthy one). -/
theorem c9_errors_returned_as_results_witness :
    (getKey (create_tool_folder "/app" "t"
      ⟨false, [], [], [], []⟩).1 "status" = some (.str "error"))
    ∧ (getKey (track_progress "T" "u" "t" "m" true
        ⟨false, [], [], [], []⟩).1 "status" = some (.str "error"))
    ∧ (getKey (manage_learning_session "T" "u" "t" "start" ""
        ⟨false, [], [], [], []⟩).1 "status" = some (.str "error"))
    ∧ (getKey (assemble_module_file "/app" "T" "t" 1 "L" "E" "Q"
        ⟨false, [], [], [], []⟩).1 "status" = some (.str "error"))
    ∧ (getKey (manage_learning_session "T" "u" "t" "frobnicate" ""
        World.empty).1 "status").isSome := by
  have h := c9_errors_returned_as_results "T" "/app" "u" "t" "frobnicate"
    "" "m" "f" "L" "E" "Q" true 1 ⟨false, [], [], [], []⟩
  have h2 := c9_errors_returned_as_results "T" "/app" "u" "t" "frobnicate"
    "" "m" "f" "L" "E" "Q" true 1 World.empty
  exact ⟨(h.1.2 rfl).1, (h.2.2.2.1.2 rfl).1, (h.2.2.2.2.2.1.2 rfl).1,
    (h.2.2.2.2.2.2.2 rfl).1, h2.2.2.2.2.2.1.1⟩
